import Mathlib

/-!
Verification development for the flashcard study-app backend
(`src/main.py`, `src/schemas.py`).

The HTTP handlers of `main.py` are embedded as pure Lean functions over an
explicit document-store state.  BSON `ObjectId` values are modelled as their
24-hex-character string form; documents are association lists of field names
to BSON-like values; the Python `dict`/truthiness conventions used by the
handlers are modelled explicitly (`pyTruthy`, `pyFalsyDoc`).

The storage gateway (`database.py`) is not part of the source tree; its two
operations are modelled from the specification (see the doc comments on
`create_document` and `get_documents`).
-/

namespace StudyApp

/-- A character bson's ObjectId string parser accepts as a hex digit. -/
def isHexChar (c : Char) : Bool :=
  c.isDigit || ('a' ≤ c && c ≤ 'f') || ('A' ≤ c && c ≤ 'F')

/-- A Mongo ObjectId, modelled by its 24-character lowercase hex string. -/
structure ObjectId where
  hex : String
deriving DecidableEq, Repr

/-- Predicate for when `bson.ObjectId(s)` succeeds on a string exactly when it is 24 hex
characters (`len(oid) == 24` and the hex decode succeeds). -/
def isValidObjectId (s : String) : Bool :=
  s.length == 24 && s.data.all isHexChar

/-- Lowercasing of a hex string (ObjectId hex is case-insensitive on parse
and rendered lowercase by `str`). -/
def lowerString (s : String) : String := String.mk (s.data.map Char.toLower)

/-- Parsing `bson.ObjectId(s)`: `some` of the parsed id, or `none` when the
constructor raises `bson.errors.InvalidId`. -/
def objectIdOfString (s : String) : Option ObjectId :=
  if isValidObjectId s then some ⟨lowerString s⟩ else none

/-- BSON-like values stored in document fields. -/
inductive BValue where
  | null : BValue
  | bool : Bool → BValue
  | int : Int → BValue
  | str : String → BValue
  | oid : ObjectId → BValue
deriving DecidableEq, Repr

/-- A document: an association list from field names to values
(Python `dict` with its insertion order). -/
abbrev Doc := List (String × BValue)

/-- Python `doc.get(key)` / `key in doc`: first binding of `key`, if any. -/
def lookupField : Doc → String → Option BValue
  | [], _ => none
  | kv :: rest, key => if kv.1 = key then some kv.2 else lookupField rest key

/-- Python `doc[key] = v` for a key already present: replace the binding in place,
keeping every other binding and the order. -/
def setField (d : Doc) (key : String) (v : BValue) : Doc :=
  d.map fun kv => if kv.1 = key then (key, v) else kv

/-- Python truthiness of `doc.get(key)`: `None` (absent or null), `False`,
`0` and `""` are falsy. -/
def pyTruthy : Option BValue → Bool
  | none => false
  | some BValue.null => false
  | some (BValue.bool b) => b
  | some (BValue.int n) => decide (n ≠ 0)
  | some (BValue.str s) => !s.isEmpty
  | some (BValue.oid _) => true

/-- Python truthiness of `not doc` for an optional document:
`None` and the empty dict are falsy. -/
def pyFalsyDoc : Option Doc → Bool
  | none => true
  | some d => d.isEmpty

/-- Mongo exact-match filter: the document matches when every filter field
is present with exactly the filter's value (conjunction). -/
def matchesFilter (query : Doc) (d : Doc) : Bool :=
  query.all fun kv => decide (lookupField d kv.1 = some kv.2)

/-- Mongo `collection.find_one(query)`: first matching document, if any. -/
def findOne (coll : List Doc) (query : Doc) : Option Doc :=
  coll.find? (matchesFilter query)

/-- The document store: one collection per record kind, plus a counter used
to mint fresh store-assigned identifiers. -/
structure Store where
  topic : List Doc
  card : List Doc
  studylog : List Doc
  nextId : Nat
deriving DecidableEq, Repr

/-- Lowercase hex digit for a value below 16. -/
def hexDigitChar (n : Nat) : Char :=
  if n < 10 then Char.ofNat (48 + n) else Char.ofNat (87 + n)

/-- A fresh 24-hex-character ObjectId string minted from a counter. -/
def oidHexOfNat (n : Nat) : String :=
  String.mk ((List.range 24).map fun i => hexDigitChar (n / 16 ^ (23 - i) % 16))

/-- Selection `db[kind]`: the collection named by a record kind. -/
def collectionOf (s : Store) (kind : String) : List Doc :=
  if kind = "topic" then s.topic
  else if kind = "card" then s.card
  else if kind = "studylog" then s.studylog
  else []

/-- Modelled from the spec: `create_document(kind, fields)` of the storage
gateway (`database.py`, absent from the source tree) inserts `fields` into
the collection named by `kind`, with a newly store-assigned identifier, and
returns that identifier as a string. -/
def create_document (s : Store) (kind : String) (fields : Doc) : String × Store :=
  let oid : ObjectId := ⟨oidHexOfNat s.nextId⟩
  let d : Doc := ("_id", BValue.oid oid) :: fields
  (oid.hex,
   { topic := if kind = "topic" then s.topic ++ [d] else s.topic,
     card := if kind = "card" then s.card ++ [d] else s.card,
     studylog := if kind = "studylog" then s.studylog ++ [d] else s.studylog,
     nextId := s.nextId + 1 })

/-- Modelled from the spec: `get_documents(kind, filter)` of the storage
gateway (`database.py`, absent from the source tree) returns all records of
the collection named by `kind` matching `filter` (exact-match conjunction
over fields); an empty filter returns the whole collection. -/
def get_documents (s : Store) (kind : String) (query : Doc) : List Doc :=
  (collectionOf s kind).filter (matchesFilter query)

/-- Conversion `str(ObjectId)`: the 24-hex-character string form. -/
def oidString (o : ObjectId) : String := o.hex

/-- Body of `serialize_doc` on a present dict: replace a top-level `_id`
field of ObjectId type by its string form; anything else passes through. -/
def serializeDocCore (d : Doc) : Doc :=
  if d.isEmpty then d
  else
    match lookupField d "_id" with
    | some (BValue.oid o) => setField d "_id" (BValue.str (oidString o))
    | _ => d

/-- Function `serialize_doc(doc)` from `main.py`: `None` passes through; otherwise
stringify a top-level ObjectId-typed `_id` field. -/
def serialize_doc : Option Doc → Option Doc
  | none => none
  | some d => some (serializeDocCore d)

/-- Request model `CreateTopic`. -/
structure CreateTopic where
  name : String
  description : Option String
deriving DecidableEq, Repr

/-- Request model `CreateCard`. -/
structure CreateCard where
  topic_id : String
  question : String
  answer : String
  difficulty : Option String
deriving DecidableEq, Repr

/-- Request model `AnswerPayload`. -/
structure AnswerPayload where
  card_id : String
  topic_id : String
  correct : Bool
deriving DecidableEq, Repr

/-- An optional string field as dumped by pydantic (`None` or the string). -/
def optStr : Option String → BValue
  | none => BValue.null
  | some s => BValue.str s

/-- Dump `payload.model_dump()` for `CreateTopic`. -/
def topicFields (p : CreateTopic) : Doc :=
  [("name", BValue.str p.name), ("description", optStr p.description)]

/-- Dump `payload.model_dump()` for `CreateCard`. -/
def cardFields (p : CreateCard) : Doc :=
  [("topic_id", BValue.str p.topic_id), ("question", BValue.str p.question),
   ("answer", BValue.str p.answer), ("difficulty", optStr p.difficulty)]

/-- Dump `payload.model_dump()` for `AnswerPayload`. -/
def answerFields (p : AnswerPayload) : Doc :=
  [("card_id", BValue.str p.card_id), ("topic_id", BValue.str p.topic_id),
   ("correct", BValue.bool p.correct)]

/-- Outcome of a handler call: a value, a raised `HTTPException`, or an
exception propagating unhandled to the framework. -/
inductive HResult (α : Type) where
  | ok : α → HResult α
  | httpError : Nat → String → HResult α
  | uncaught : String → HResult α
deriving DecidableEq, Repr

/-- Handler for `POST /api/topics` (`create_topic`). -/
def create_topic (db : Option Store) (p : CreateTopic) :
    HResult String × Option Store :=
  match db with
  | none => (HResult.httpError 500 "Database not configured", none)
  | some s =>
    let r := create_document s "topic" (topicFields p)
    (HResult.ok r.1, some r.2)

/-- Handler for `GET /api/topics` (`list_topics`). -/
def list_topics (db : Option Store) : HResult (List Doc) × Option Store :=
  match db with
  | none => (HResult.httpError 500 "Database not configured", none)
  | some s =>
    (HResult.ok ((get_documents s "topic" []).map serializeDocCore), some s)

/-- Handler for `POST /api/cards` (`create_card`).  The `ObjectId(payload.topic_id)`
construction is NOT guarded by a try/except in the source, so an
untranslatable identifier propagates as an uncaught exception. -/
def create_card (db : Option Store) (p : CreateCard) :
    HResult String × Option Store :=
  match db with
  | none => (HResult.httpError 500 "Database not configured", none)
  | some s =>
    match objectIdOfString p.topic_id with
    | none => (HResult.uncaught "bson.errors.InvalidId", some s)
    | some oid =>
      let topic := findOne s.topic [("_id", BValue.oid oid)]
      if pyFalsyDoc topic then (HResult.httpError 404 "Topic not found", some s)
      else
        let r := create_document s "card" (cardFields p)
        (HResult.ok r.1, some r.2)

/-- Query building `{"topic_id": topic_id} if topic_id else {}`: Python truthiness
folds both `None` and the empty string into the empty filter. -/
def queryOfTopicId (topic_id : Option String) : Doc :=
  match topic_id with
  | some t => if t = "" then [] else [("topic_id", BValue.str t)]
  | none => []

/-- Handler for `GET /api/cards` (`list_cards`). -/
def list_cards (db : Option Store) (topic_id : Option String) :
    HResult (List Doc) × Option Store :=
  match db with
  | none => (HResult.httpError 500 "Database not configured", none)
  | some s =>
    (HResult.ok ((get_documents s "card" (queryOfTopicId topic_id)).map
        serializeDocCore), some s)

/-- Handler for `POST /api/answer` (`submit_answer`).  The card existence check wraps
the lookup in try/except: an untranslatable `card_id` makes `card = None`
and is folded into the 404 outcome. -/
def submit_answer (db : Option Store) (p : AnswerPayload) :
    HResult String × Option Store :=
  match db with
  | none => (HResult.httpError 500 "Database not configured", none)
  | some s =>
    let card : Option Doc :=
      match objectIdOfString p.card_id with
      | none => none
      | some oid => findOne s.card [("_id", BValue.oid oid)]
    if pyFalsyDoc card then (HResult.httpError 404 "Card not found", some s)
    else
      let r := create_document s "studylog" (answerFields p)
      (HResult.ok r.1, some r.2)

/-- The `{total, correct, accuracy}` progress response.  `accuracy` is the
exact value of the division (modelled in ℚ). -/
structure Progress where
  total : Nat
  correct : Nat
  accuracy : ℚ
deriving DecidableEq, Repr

/-- The study logs matching the progress/list filter for a given
(optional) `topic_id`. -/
def matchingLogs (s : Store) (topic_id : Option String) : List Doc :=
  s.studylog.filter (matchesFilter (queryOfTopicId topic_id))

/-- Handler for `GET /api/progress` (`get_progress`). -/
def get_progress (db : Option Store) (topic_id : Option String) :
    HResult Progress × Option Store :=
  match db with
  | none => (HResult.httpError 500 "Database not configured", none)
  | some s =>
    let logs := matchingLogs s topic_id
    let total := logs.length
    let correct := (logs.filter fun l => pyTruthy (lookupField l "correct")).length
    (HResult.ok
      ⟨total, correct, if total = 0 then 0 else (correct : ℚ) / (total : ℚ)⟩,
     some s)

/-- Introspection `dir(schemas)` for `src/schemas.py`: the module's attribute names in
sorted order — the three declared models, the three imported names
(`BaseModel`, `Field` from pydantic, `Optional` from typing) and the
module dunders. -/
def schemasModuleDir : List String :=
  ["BaseModel", "Card", "Field", "Optional", "StudyLog", "Topic",
   "__builtins__", "__cached__", "__doc__", "__file__", "__loader__",
   "__name__", "__package__", "__spec__"]

/-- The record kinds declared by the Schema Definitions component. -/
def declaredRecordKinds : List String := ["Topic", "Card", "StudyLog"]

/-- Python `name[0].isupper()` on an attribute name. -/
def firstCharUpper (s : String) : Bool := s.front.isUpper

/-- Response of `GET /schema`: a models list or an `{error}` object. -/
inductive SchemaResponse where
  | models : List String → SchemaResponse
  | error : String → SchemaResponse
deriving DecidableEq, Repr

/-- Handler for `GET /schema` (`get_schema`), parametrised by the outcome of the
`import schemas` introspection (`ok` carries `dir(schemas)`). -/
def get_schema (importResult : Except String (List String)) : SchemaResponse :=
  match importResult with
  | Except.ok names => SchemaResponse.models (names.filter firstCharUpper)
  | Except.error e => SchemaResponse.error e

/-- The models list actually produced by `GET /schema` when the import of
`src/schemas.py` succeeds. -/
def get_schema_models : List String :=
  match get_schema (Except.ok schemasModuleDir) with
  | SchemaResponse.models ms => ms
  | SchemaResponse.error _ => []

/-- A connected store handle as seen by `/test`: its name and the outcome
of a `list_collection_names()` call (which may raise). -/
structure StoreConn where
  name : String
  listCollectionNames : Except String (List String)

/-- The diagnostic object returned by `GET /test`. -/
structure TestResponse where
  backend : String
  database : String
  database_url : Option String
  database_name : Option String
  connection_status : String
  collections : List String
deriving DecidableEq, Repr

/-- Flag `"✅ Set"` / `"❌ Not Set"` depending on an environment variable. -/
def envFlag (b : Bool) : String := if b then "✅ Set" else "❌ Not Set"

/-- Handler for `GET /test` (`test_database`), parametrised by the store handle state
and the presence of the `DATABASE_URL` / `DATABASE_NAME` environment
variables.  Every store failure is caught and rendered as a status string;
the two environment flags overwrite `database_url` / `database_name`
unconditionally at the end. -/
def test_database (db : Option StoreConn) (urlSet nameSet : Bool) :
    TestResponse :=
  let base : TestResponse :=
    { backend := "✅ Running", database := "❌ Not Available",
      database_url := none, database_name := none,
      connection_status := "Not Connected", collections := [] }
  let r : TestResponse :=
    match db with
    | some c =>
      let r1 : TestResponse :=
        { base with
          database := "✅ Available",
          database_url := some "✅ Configured",
          database_name := some c.name, connection_status := "Connected" }
      match c.listCollectionNames with
      | Except.ok cols =>
        { r1 with
          collections := cols.take 10,
          database := "✅ Connected & Working" }
      | Except.error e =>
        { r1 with database := "⚠️  Connected but Error: " ++ e.take 50 }
    | none => { base with database := "⚠️  Available but not initialized" }
  { r with
    database_url := some (envFlag urlSet),
    database_name := some (envFlag nameSet) }

/-- Predicate for a log counted by the `correct` tally when the field obeys
the StudyLog schema: the `correct` field is present and is the boolean
`true`. -/
def correctTrue (l : Doc) : Bool :=
  decide (lookupField l "correct" = some (BValue.bool true))

/-! ### Helper lemmas -/

theorem setField_cons (kv : String × BValue) (rest : Doc) (key : String)
    (v : BValue) :
    setField (kv :: rest) key v =
      (if kv.1 = key then (key, v) else kv) :: setField rest key v := by
  simp [setField]

theorem lookupField_setField_self (d : Doc) (key : String) (v w : BValue)
    (h : lookupField d key = some w) :
    lookupField (setField d key v) key = some v := by
  induction d with
  | nil => simp [lookupField] at h
  | cons kv rest ih =>
    rw [setField_cons]
    by_cases hk : kv.1 = key
    · rw [if_pos hk]
      show (if key = key then some v else lookupField (setField rest key v) key) =
        some v
      rw [if_pos rfl]
    · rw [if_neg hk]
      show (if kv.1 = key then some kv.2 else lookupField (setField rest key v) key) =
        some v
      rw [if_neg hk]
      have h' : lookupField rest key = some w := by
        rw [show lookupField (kv :: rest) key =
          if kv.1 = key then some kv.2 else lookupField rest key from rfl,
          if_neg hk] at h
        exact h
      exact ih h'

theorem lookupField_setField_ne (d : Doc) (key k : String) (v : BValue)
    (h : k ≠ key) :
    lookupField (setField d key v) k = lookupField d k := by
  induction d with
  | nil => rfl
  | cons kv rest ih =>
    rw [setField_cons]
    by_cases hk : kv.1 = key
    · rw [if_pos hk]
      show (if key = k then some v else lookupField (setField rest key v) k) =
        if kv.1 = k then some kv.2 else lookupField rest k
      have hkk : ¬key = k := fun he => h he.symm
      have hk1 : ¬kv.1 = k := by rw [hk]; exact hkk
      rw [if_neg hkk, if_neg hk1]
      exact ih
    · rw [if_neg hk]
      show (if kv.1 = k then some kv.2 else lookupField (setField rest key v) k) =
        if kv.1 = k then some kv.2 else lookupField rest k
      by_cases hq : kv.1 = k
      · rw [if_pos hq, if_pos hq]
      · rw [if_neg hq, if_neg hq]
        exact ih

theorem isEmpty_false_of_lookup (d : Doc) (key : String) (v : BValue)
    (h : lookupField d key = some v) : d.isEmpty = false := by
  cases d with
  | nil => simp [lookupField] at h
  | cons kv rest => rfl

theorem filterExt (p q : Doc → Bool) :
    ∀ L : List Doc, (∀ l ∈ L, p l = q l) → L.filter p = L.filter q := by
  intro L
  induction L with
  | nil => intro _; rfl
  | cons a rest ih =>
    intro h
    have ha := h a (List.mem_cons_self a rest)
    have hr := fun l hl => h l (List.mem_cons_of_mem a hl)
    simp [List.filter_cons, ha, ih hr]

theorem lengthFilterLt (p : Doc → Bool) (L : List Doc) (l : Doc)
    (hl : l ∈ L) (hp : p l = false) : (L.filter p).length < L.length := by
  induction L with
  | nil => cases hl
  | cons a rest ih =>
    rcases List.mem_cons.mp hl with h | h
    · subst h
      simp only [List.filter_cons, hp]
      exact Nat.lt_succ_of_le (List.length_filter_le p rest)
    · cases hpa : p a
      · simp only [List.filter_cons, hpa]
        exact Nat.lt_succ_of_lt (ih h)
      · simp only [List.filter_cons, hpa, List.length_cons]
        exact Nat.succ_lt_succ (ih h)

/-! ### Claims -/

/-- Claim C6: with an uninitialized store handle, every data-touching
handler (create topic, list topics, create card, list cards, submit answer,
get progress) fails with the identical 500 "Database not configured" error;
no store operation is performed (the store component of each result is
`none`, untouched). -/
theorem claim6_db_not_configured :
    ∀ (pt : CreateTopic) (pc : CreateCard) (pa : AnswerPayload)
      (tid tid2 : Option String),
    create_topic none pt = (HResult.httpError 500 "Database not configured", none) ∧
    list_topics none = (HResult.httpError 500 "Database not configured", none) ∧
    create_card none pc = (HResult.httpError 500 "Database not configured", none) ∧
    list_cards none tid = (HResult.httpError 500 "Database not configured", none) ∧
    submit_answer none pa = (HResult.httpError 500 "Database not configured", none) ∧
    get_progress none tid2 = (HResult.httpError 500 "Database not configured", none) := by
  intro pt pc pa tid tid2
  exact ⟨rfl, rfl, rfl, rfl, rfl, rfl⟩

/-- Claim C9: `GET /test` is total on every store state — handle absent,
connected and working, or failing inside `list_collection_names` — and
always returns the diagnostic object: `backend` running, a connectivity
status, and the presence flags of the `DATABASE_URL` / `DATABASE_NAME`
environment variables (which unconditionally overwrite the url/name
fields).  A store failure is rendered as a descriptive status string, never
propagated. -/
theorem claim9_test_diagnostic :
    ∀ (nm : String) (cols : List String) (e : String) (eu en : Bool),
    test_database none eu en =
      { backend := "✅ Running", database := "⚠️  Available but not initialized",
        database_url := some (envFlag eu), database_name := some (envFlag en),
        connection_status := "Not Connected", collections := [] } ∧
    test_database (some ⟨nm, Except.ok cols⟩) eu en =
      { backend := "✅ Running", database := "✅ Connected & Working",
        database_url := some (envFlag eu), database_name := some (envFlag en),
        connection_status := "Connected", collections := cols.take 10 } ∧
    test_database (some ⟨nm, Except.error e⟩) eu en =
      { backend := "✅ Running",
        database := "⚠️  Connected but Error: " ++ e.take 50,
        database_url := some (envFlag eu), database_name := some (envFlag en),
        connection_status := "Connected", collections := [] } := by
  intro nm cols e eu en
  exact ⟨rfl, rfl, rfl⟩

/-- Claim C3 counterexample: the `/schema` success response is not exactly
the declared record-kind names — it also lists `BaseModel`, an imported
name whose first character is uppercase. -/
theorem claim3_counterexample :
    "BaseModel" ∈ get_schema_models ∧ "BaseModel" ∉ declaredRecordKinds := by
  decide

/-- Claim C3 (amended): the `/schema` success response lists exactly the
attributes of the schemas module whose first character is uppercase — the
three declared record kinds together with the imported names `BaseModel`,
`Field` and `Optional` — and on introspection failure the response is the
error object. -/
theorem claim3_schema_models :
    get_schema (Except.ok schemasModuleDir) =
      SchemaResponse.models
        ["BaseModel", "Card", "Field", "Optional", "StudyLog", "Topic"] ∧
    declaredRecordKinds ⊆ get_schema_models ∧
    (∀ e : String, get_schema (Except.error e) = SchemaResponse.error e) := by
  refine ⟨by decide, by decide, fun e => rfl⟩

/-- Claim C7: the serialization helper maps `None` to `None`; leaves a
record whose top-level `_id` field is absent, or present but not of the
ObjectId type (e.g. already a string), unchanged; and otherwise replaces
`_id` by its string representation, leaving every other field unchanged. -/
theorem claim7_serialize_doc :
    serialize_doc none = none ∧
    (∀ d : Doc, lookupField d "_id" = none → serialize_doc (some d) = some d) ∧
    (∀ (d : Doc) (v : BValue), lookupField d "_id" = some v →
      (∀ o : ObjectId, v ≠ BValue.oid o) → serialize_doc (some d) = some d) ∧
    (∀ (d : Doc) (o : ObjectId), lookupField d "_id" = some (BValue.oid o) →
      serialize_doc (some d) = some (setField d "_id" (BValue.str (oidString o))) ∧
      lookupField (setField d "_id" (BValue.str (oidString o))) "_id" =
        some (BValue.str (oidString o)) ∧
      (∀ k : String, k ≠ "_id" →
        lookupField (setField d "_id" (BValue.str (oidString o))) k =
          lookupField d k)) := by
  refine ⟨rfl, ?_, ?_, ?_⟩
  · intro d h
    cases d with
    | nil => rfl
    | cons kv rest => simp [serialize_doc, serializeDocCore, h]
  · intro d v h hv
    have he := isEmpty_false_of_lookup d "_id" v h
    cases v with
    | oid o => exact absurd rfl (hv o)
    | null => simp [serialize_doc, serializeDocCore, he, h]
    | bool b => simp [serialize_doc, serializeDocCore, he, h]
    | int n => simp [serialize_doc, serializeDocCore, he, h]
    | str s2 => simp [serialize_doc, serializeDocCore, he, h]
  · intro d o h
    have he := isEmpty_false_of_lookup d "_id" (BValue.oid o) h
    exact ⟨by simp [serialize_doc, serializeDocCore, he, h],
      lookupField_setField_self d "_id" _ _ h,
      fun k hk => lookupField_setField_ne d "_id" k _ hk⟩

/-- Witness for claim C7 at a concrete record carrying an ObjectId `_id`
and one further field. -/
theorem claim7_witness :
    (lookupField [("_id", BValue.oid ⟨"aaaaaaaaaaaaaaaaaaaaaaaa"⟩),
        ("name", BValue.str "x")] "_id" =
      some (BValue.oid ⟨"aaaaaaaaaaaaaaaaaaaaaaaa"⟩)) ∧
    serialize_doc (some [("_id", BValue.oid ⟨"aaaaaaaaaaaaaaaaaaaaaaaa"⟩),
        ("name", BValue.str "x")]) =
      some (setField [("_id", BValue.oid ⟨"aaaaaaaaaaaaaaaaaaaaaaaa"⟩),
        ("name", BValue.str "x")] "_id"
        (BValue.str (oidString ⟨"aaaaaaaaaaaaaaaaaaaaaaaa"⟩))) :=
  ⟨rfl, (claim7_serialize_doc.2.2.2
    [("_id", BValue.oid ⟨"aaaaaaaaaaaaaaaaaaaaaaaa"⟩), ("name", BValue.str "x")]
    ⟨"aaaaaaaaaaaaaaaaaaaaaaaa"⟩ rfl).1⟩

/-- Claim C1 counterexample: a create-card request whose `topic_id` is not
translatable into an ObjectId does NOT get the not-found outcome that a
well-formed but absent identifier gets — the invalid-id exception
propagates uncaught, a distinct outcome. -/
theorem claim1_counterexample :
    objectIdOfString "zzz" = none ∧
    (create_card (some ⟨[], [], [], 0⟩) ⟨"zzz", "q", "a", some "medium"⟩).1 =
      HResult.uncaught "bson.errors.InvalidId" ∧
    (create_card (some ⟨[], [], [], 0⟩)
        ⟨"0123456789abcdef01234567", "q", "a", some "medium"⟩).1 =
      HResult.httpError 404 "Topic not found" ∧
    (HResult.uncaught "bson.errors.InvalidId" : HResult String) ≠
      HResult.httpError 404 "Topic not found" := by
  decide

/-- Claim C1 (amended): for submit-answer an untranslatable `card_id` is
folded into exactly the 404 "Card not found" outcome that a well-formed
but absent `card_id` gets; for create-card, by contrast, an untranslatable
`topic_id` propagates as an uncaught invalid-id exception, distinct from
the not-found outcome. -/
theorem claim1_amended :
    (∀ (s : Store) (p : AnswerPayload), objectIdOfString p.card_id = none →
      (submit_answer (some s) p).1 = HResult.httpError 404 "Card not found") ∧
    (∀ (s : Store) (p : AnswerPayload) (oid : ObjectId),
      objectIdOfString p.card_id = some oid →
      findOne s.card [("_id", BValue.oid oid)] = none →
      (submit_answer (some s) p).1 = HResult.httpError 404 "Card not found") ∧
    (∀ (s : Store) (p : CreateCard), objectIdOfString p.topic_id = none →
      (create_card (some s) p).1 = HResult.uncaught "bson.errors.InvalidId") := by
  refine ⟨?_, ?_, ?_⟩
  · intro s p h
    simp [submit_answer, h, pyFalsyDoc]
  · intro s p oid h hf
    simp [submit_answer, h, hf, pyFalsyDoc]
  · intro s p h
    simp [create_card, h]

/-- Witness for claim C1 (amended) at a concrete untranslatable
`card_id`. -/
theorem claim1_witness :
    objectIdOfString "zzz" = none ∧
    (submit_answer (some ⟨[], [], [], 0⟩) ⟨"zzz", "t", true⟩).1 =
      HResult.httpError 404 "Card not found" :=
  ⟨by decide, claim1_amended.1 ⟨[], [], [], 0⟩ ⟨"zzz", "t", true⟩ (by decide)⟩

/-- Claim C4 counterexample: a list-cards request that supplies the filter
value `""` returns every stored card, including one whose `topic_id` is
`"X" ≠ ""` — Python truthiness folds the empty-string filter into "no
filter". -/
theorem claim4_counterexample :
    (list_cards
        (some ⟨[], [[("_id", BValue.str "c1"), ("topic_id", BValue.str "X")]], [], 0⟩)
        (some "")).1 =
      HResult.ok [[("_id", BValue.str "c1"), ("topic_id", BValue.str "X")]] ∧
    lookupField [("_id", BValue.str "c1"), ("topic_id", BValue.str "X")]
        "topic_id" ≠ some (BValue.str "") := by
  decide

/-- Claim C4 (amended): a list-cards request with a non-empty `topic_id`
filter returns exactly the (serialized) stored cards whose `topic_id`
field equals the filter value; omitting the filter — or supplying the
empty string, which Python truthiness folds into "omitted" — returns all
cards. -/
theorem claim4_amended :
    (∀ (s : Store) (t : String), t ≠ "" →
      (list_cards (some s) (some t)).1 =
        HResult.ok ((s.card.filter fun d =>
          decide (lookupField d "topic_id" = some (BValue.str t))).map
            serializeDocCore)) ∧
    (∀ s : Store, (list_cards (some s) none).1 =
      HResult.ok (s.card.map serializeDocCore)) ∧
    (∀ s : Store, (list_cards (some s) (some "")).1 =
      HResult.ok (s.card.map serializeDocCore)) := by
  have hall : ∀ s : Store,
      (collectionOf s "card").filter (matchesFilter []) = s.card := by
    intro s
    show s.card.filter (matchesFilter []) = s.card
    have := filterExt (matchesFilter []) (fun _ => true) s.card
      (fun l _ => by simp [matchesFilter])
    simpa using this
  refine ⟨?_, ?_, ?_⟩
  · intro s t h
    have hq : queryOfTopicId (some t) = [("topic_id", BValue.str t)] := by
      simp [queryOfTopicId, h]
    have hfe : (collectionOf s "card").filter
        (matchesFilter [("topic_id", BValue.str t)]) =
        s.card.filter fun d =>
          decide (lookupField d "topic_id" = some (BValue.str t)) := by
      show s.card.filter _ = _
      exact filterExt _ _ s.card (fun l _ => by simp [matchesFilter])
    simp [list_cards, get_documents, hq, hfe]
  · intro s
    simp [list_cards, get_documents, queryOfTopicId, hall s]
  · intro s
    simp [list_cards, get_documents, queryOfTopicId, hall s]

/-- Witness for claim C4 (amended) at a concrete non-empty filter. -/
theorem claim4_witness :
    ("X" : String) ≠ "" ∧
    (list_cards
        (some ⟨[], [[("_id", BValue.str "c1"), ("topic_id", BValue.str "X")],
          [("_id", BValue.str "c2"), ("topic_id", BValue.str "Y")]], [], 0⟩)
        (some "X")).1 =
      HResult.ok
        (([[("_id", BValue.str "c1"), ("topic_id", BValue.str "X")],
          [("_id", BValue.str "c2"), ("topic_id", BValue.str "Y")]].filter fun d =>
            decide (lookupField d "topic_id" = some (BValue.str "X"))).map
          serializeDocCore) :=
  ⟨by decide,
   claim4_amended.1
     ⟨[], [[("_id", BValue.str "c1"), ("topic_id", BValue.str "X")],
       [("_id", BValue.str "c2"), ("topic_id", BValue.str "Y")]], [], 0⟩
     "X" (by decide)⟩

/-- Claim C5 counterexample: a create-card request whose `topic_id` names
no existing topic (here: an untranslatable identifier) does not produce
the not-found outcome — the invalid-id exception propagates — although the
card collection is indeed left unchanged. -/
theorem claim5_counterexample :
    (create_card (some ⟨[], [], [], 7⟩) ⟨"not-an-objectid", "2+2?", "4", none⟩).1 ≠
      HResult.httpError 404 "Topic not found" ∧
    (create_card (some ⟨[], [], [], 7⟩) ⟨"not-an-objectid", "2+2?", "4", none⟩).1 =
      HResult.uncaught "bson.errors.InvalidId" ∧
    (create_card (some ⟨[], [], [], 7⟩) ⟨"not-an-objectid", "2+2?", "4", none⟩).2 =
      some ⟨[], [], [], 7⟩ := by
  decide

/-- Claim C5 (amended): a create-card request whose `topic_id` is a
well-formed identifier naming no existing Topic gets the 404 "Topic not
found" outcome with the store (hence the card collection) unchanged; an
untranslatable `topic_id` instead propagates an uncaught invalid-id
exception, likewise leaving the store unchanged — in neither case is a
Card record inserted. -/
theorem claim5_amended :
    (∀ (s : Store) (p : CreateCard) (oid : ObjectId),
      objectIdOfString p.topic_id = some oid →
      findOne s.topic [("_id", BValue.oid oid)] = none →
      create_card (some s) p = (HResult.httpError 404 "Topic not found", some s)) ∧
    (∀ (s : Store) (p : CreateCard), objectIdOfString p.topic_id = none →
      create_card (some s) p = (HResult.uncaught "bson.errors.InvalidId", some s)) := by
  refine ⟨?_, ?_⟩
  · intro s p oid h hf
    simp [create_card, h, hf, pyFalsyDoc]
  · intro s p h
    simp [create_card, h]

/-- Witness for claim C5 (amended) at a concrete well-formed but absent
`topic_id`. -/
theorem claim5_witness :
    objectIdOfString "0123456789abcdef01234567" =
      some ⟨"0123456789abcdef01234567"⟩ ∧
    findOne (Store.topic ⟨[], [], [], 0⟩)
      [("_id", BValue.oid ⟨"0123456789abcdef01234567"⟩)] = none ∧
    create_card (some ⟨[], [], [], 0⟩)
        ⟨"0123456789abcdef01234567", "q", "a", none⟩ =
      (HResult.httpError 404 "Topic not found", some ⟨[], [], [], 0⟩) :=
  ⟨by decide, by decide,
   claim5_amended.1 ⟨[], [], [], 0⟩ ⟨"0123456789abcdef01234567", "q", "a", none⟩
     ⟨"0123456789abcdef01234567"⟩ (by decide) (by decide)⟩

/-- Claim C8: when the referenced card exists, submit-answer inserts one
studylog record carrying exactly the caller-supplied `card_id`, `topic_id`
and `correct` values.  `p.topic_id` is a fully unconstrained universally
quantified string — no hypothesis relates it to the card's actual topic or
to any existing topic, so any value is accepted. -/
theorem claim8_submit_answer (s : Store) (p : AnswerPayload) (oid : ObjectId)
    (ho : objectIdOfString p.card_id = some oid)
    (hc : pyFalsyDoc (findOne s.card [("_id", BValue.oid oid)]) = false) :
    ∃ (newId : String) (s' : Store),
      submit_answer (some s) p = (HResult.ok newId, some s') ∧
      s'.topic = s.topic ∧ s'.card = s.card ∧
      ∃ d : Doc, s'.studylog = s.studylog ++ [d] ∧
        lookupField d "card_id" = some (BValue.str p.card_id) ∧
        lookupField d "topic_id" = some (BValue.str p.topic_id) ∧
        lookupField d "correct" = some (BValue.bool p.correct) := by
  refine ⟨oidHexOfNat s.nextId,
    { topic := s.topic, card := s.card,
      studylog := s.studylog ++
        [("_id", BValue.oid ⟨oidHexOfNat s.nextId⟩) :: answerFields p],
      nextId := s.nextId + 1 }, ?_, rfl, rfl,
    ⟨("_id", BValue.oid ⟨oidHexOfNat s.nextId⟩) :: answerFields p, rfl,
      by simp [lookupField, answerFields], by simp [lookupField, answerFields],
      by simp [lookupField, answerFields]⟩⟩
  simp [submit_answer, ho, hc, create_document]

/-- Witness for claim C8 at a concrete store holding the referenced card,
with a `topic_id` that names no topic at all. -/
theorem claim8_witness :
    objectIdOfString "0123456789abcdef01234567" =
      some ⟨"0123456789abcdef01234567"⟩ ∧
    pyFalsyDoc (findOne [[("_id", BValue.oid ⟨"0123456789abcdef01234567"⟩)]]
      [("_id", BValue.oid ⟨"0123456789abcdef01234567"⟩)]) = false ∧
    ∃ (newId : String) (s' : Store),
      submit_answer
          (some ⟨[], [[("_id", BValue.oid ⟨"0123456789abcdef01234567"⟩)]], [], 5⟩)
          ⟨"0123456789abcdef01234567", "no-such-topic", true⟩ =
        (HResult.ok newId, some s') ∧
      s'.topic = [] ∧
      s'.card = [[("_id", BValue.oid ⟨"0123456789abcdef01234567"⟩)]] ∧
      ∃ d : Doc, s'.studylog = [] ++ [d] ∧
        lookupField d "card_id" = some (BValue.str "0123456789abcdef01234567") ∧
        lookupField d "topic_id" = some (BValue.str "no-such-topic") ∧
        lookupField d "correct" = some (BValue.bool true) :=
  ⟨by decide, by decide,
   claim8_submit_answer
     ⟨[], [[("_id", BValue.oid ⟨"0123456789abcdef01234567"⟩)]], [], 5⟩
     ⟨"0123456789abcdef01234567", "no-such-topic", true⟩
     ⟨"0123456789abcdef01234567"⟩ (by decide) (by decide)⟩

/-- Claim C2: for any get-progress request over logs whose `correct` field
obeys the StudyLog schema (a boolean), the handler returns — never an
error — `total` the number of matching logs, `correct` the number of those
whose `correct` field is `true`, and `accuracy` exactly `0` when `total`
is zero, else exactly `correct / total` (an exact rational, never NaN). -/
theorem claim2_progress (s : Store) (tid : Option String)
    (hb : ∀ l ∈ matchingLogs s tid, ∃ b : Bool,
      lookupField l "correct" = some (BValue.bool b)) :
    ∃ p : Progress, (get_progress (some s) tid).1 = HResult.ok p ∧
      p.total = (matchingLogs s tid).length ∧
      p.correct = ((matchingLogs s tid).filter correctTrue).length ∧
      (p.total = 0 → p.accuracy = 0) ∧
      (0 < p.total → p.accuracy = (p.correct : ℚ) / (p.total : ℚ)) := by
  have hfc : (matchingLogs s tid).filter
        (fun l => pyTruthy (lookupField l "correct")) =
      (matchingLogs s tid).filter correctTrue := by
    apply filterExt
    intro l hl
    obtain ⟨b, hbl⟩ := hb l hl
    cases b <;> simp [pyTruthy, correctTrue, hbl]
  refine ⟨⟨(matchingLogs s tid).length,
    ((matchingLogs s tid).filter fun l =>
      pyTruthy (lookupField l "correct")).length,
    if (matchingLogs s tid).length = 0 then 0
    else (((matchingLogs s tid).filter fun l =>
        pyTruthy (lookupField l "correct")).length : ℚ) /
      ((matchingLogs s tid).length : ℚ)⟩, rfl, rfl, ?_, ?_, ?_⟩
  · exact congrArg List.length hfc
  · intro h
    have h' : (matchingLogs s tid).length = 0 := h
    rw [if_pos h']
  · intro h
    have h' : 0 < (matchingLogs s tid).length := h
    have hne : (matchingLogs s tid).length ≠ 0 := Nat.pos_iff_ne_zero.mp h'
    rw [if_neg hne]

/-- Witness for claim C2 at a concrete store with one correct and one
incorrect matching log. -/
theorem claim2_witness :
    (∀ l ∈ matchingLogs ⟨[], [],
        [[("topic_id", BValue.str "t1"), ("correct", BValue.bool true)],
         [("topic_id", BValue.str "t1"), ("correct", BValue.bool false)]], 0⟩
        (some "t1"), ∃ b : Bool,
          lookupField l "correct" = some (BValue.bool b)) ∧
    ∃ p : Progress,
      (get_progress (some ⟨[], [],
        [[("topic_id", BValue.str "t1"), ("correct", BValue.bool true)],
         [("topic_id", BValue.str "t1"), ("correct", BValue.bool false)]], 0⟩)
        (some "t1")).1 = HResult.ok p ∧
      p.total = (matchingLogs ⟨[], [],
        [[("topic_id", BValue.str "t1"), ("correct", BValue.bool true)],
         [("topic_id", BValue.str "t1"), ("correct", BValue.bool false)]], 0⟩
        (some "t1")).length ∧
      p.correct = ((matchingLogs ⟨[], [],
        [[("topic_id", BValue.str "t1"), ("correct", BValue.bool true)],
         [("topic_id", BValue.str "t1"), ("correct", BValue.bool false)]], 0⟩
        (some "t1")).filter correctTrue).length ∧
      (p.total = 0 → p.accuracy = 0) ∧
      (0 < p.total → p.accuracy = (p.correct : ℚ) / (p.total : ℚ)) :=
  ⟨by decide,
   claim2_progress ⟨[], [],
     [[("topic_id", BValue.str "t1"), ("correct", BValue.bool true)],
      [("topic_id", BValue.str "t1"), ("correct", BValue.bool false)]], 0⟩
     (some "t1") (by decide)⟩

/-- Claim C10: a matching study-log record whose `correct` field is absent
or falsy is counted in `total` but not in `correct` — the handler returns
normally (no error), `total` is the full count of matching logs, and the
`correct` tally is strictly below `total` (in particular `correct ≤ total`
always). -/
theorem claim10_progress (s : Store) (tid : Option String) (l : Doc)
    (hl : l ∈ s.studylog)
    (hm : matchesFilter (queryOfTopicId tid) l = true)
    (hf : pyTruthy (lookupField l "correct") = false) :
    ∃ p : Progress, (get_progress (some s) tid).1 = HResult.ok p ∧
      p.total = (matchingLogs s tid).length ∧
      p.correct ≤ p.total ∧ p.correct < p.total := by
  have hmem : l ∈ matchingLogs s tid := List.mem_filter.mpr ⟨hl, hm⟩
  exact ⟨⟨(matchingLogs s tid).length,
    ((matchingLogs s tid).filter fun l2 =>
      pyTruthy (lookupField l2 "correct")).length,
    if (matchingLogs s tid).length = 0 then 0
    else (((matchingLogs s tid).filter fun l2 =>
        pyTruthy (lookupField l2 "correct")).length : ℚ) /
      ((matchingLogs s tid).length : ℚ)⟩, rfl, rfl,
    List.length_filter_le _ _,
    lengthFilterLt _ _ l hmem hf⟩

/-- Witness for claim C10 at a concrete store holding one matching log
that lacks the `correct` field entirely. -/
theorem claim10_witness :
    ([("topic_id", BValue.str "t")] ∈
      Store.studylog ⟨[], [], [[("topic_id", BValue.str "t")],
        [("topic_id", BValue.str "t"), ("correct", BValue.bool true)]], 0⟩) ∧
    matchesFilter (queryOfTopicId none) [("topic_id", BValue.str "t")] = true ∧
    pyTruthy (lookupField [("topic_id", BValue.str "t")] "correct") = false ∧
    ∃ p : Progress,
      (get_progress (some ⟨[], [], [[("topic_id", BValue.str "t")],
        [("topic_id", BValue.str "t"), ("correct", BValue.bool true)]], 0⟩)
        none).1 = HResult.ok p ∧
      p.total = (matchingLogs ⟨[], [], [[("topic_id", BValue.str "t")],
        [("topic_id", BValue.str "t"), ("correct", BValue.bool true)]], 0⟩
        none).length ∧
      p.correct ≤ p.total ∧ p.correct < p.total :=
  ⟨by decide, by decide, by decide,
   claim10_progress ⟨[], [], [[("topic_id", BValue.str "t")],
     [("topic_id", BValue.str "t"), ("correct", BValue.bool true)]], 0⟩
     none [("topic_id", BValue.str "t")] (by decide) (by decide) (by decide)⟩

end StudyApp
